import Mathlib

/-!
Verification of the Odos SOR V2 client (`src/sor.rs`).

The client issues HTTP POST requests to the Odos quote and assemble
endpoints, branches on the HTTP status, decodes JSON bodies into typed
responses, and maps an assembly response into a partially populated
blockchain transaction request.

The embedding is shallow: each asynchronous HTTP operation becomes a pure
function of the transport outcome (a mocked network function from the
outgoing request to `Except transportError HttpResponse`).  Supporting
types that live in other modules of the repository (errors, request and
response structures, the HTTP client wrapper, the value-parsing helper)
are modelled from the specification, as marked on each definition.
Third-party behaviour (serde_json parsing, alloy hex decoding, the alloy
`TransactionRequest` builder, reqwest responses) is modelled from those
libraries' documented semantics, restricted to the fragment this client
exercises.
-/

namespace Odos

/-- JSON values, modelling the `serde_json::Value` fragment used by the
client: null, booleans, integer numbers, strings, arrays and objects
(objects as ordered field lists).  Fractional and exponent number forms
are not used by any request or response of this client and are omitted. -/
inductive Json where
  | null : Json
  | bool (b : Bool) : Json
  | num (n : Int) : Json
  | str (s : String) : Json
  | arr (xs : List Json) : Json
  | obj (fields : List (String × Json)) : Json

/-- Whitespace skipping for the JSON parser. -/
def skipWs : List Char → List Char
  | c :: cs => if c = ' ' ∨ c = '\n' ∨ c = '\t' ∨ c = '\r' then skipWs cs else c :: cs
  | [] => []

/-- Decode a single JSON string escape character (quote, backslash and
solidus stand for themselves; n, t, r for the control characters). -/
def escChar? (c : Char) : Option Char :=
  if c = 'n' then some '\n'
  else if c = 't' then some '\t'
  else if c = 'r' then some '\r'
  else if c = '"' ∨ c = '\\' ∨ c = '/' then some c
  else none

/-- Parse the remainder of a JSON string literal (the opening quote has
already been consumed), returning the characters and the rest of the
input. -/
def parseStringAux : List Char → Option (List Char × List Char)
  | [] => none
  | c :: rest =>
    if c = '"' then some ([], rest)
    else if c = '\\' then
      match rest with
      | [] => none
      | e :: rest2 => do
          let ec ← escChar? e
          let (s, r) ← parseStringAux rest2
          pure (ec :: s, r)
    else do
      let (s, r) ← parseStringAux rest
      pure (c :: s, r)
termination_by structural l => l

/-- Hex digit value of a character, if any. -/
def hexDigit? (c : Char) : Option Nat :=
  if '0' ≤ c ∧ c ≤ '9' then some (c.toNat - '0'.toNat)
  else if 'a' ≤ c ∧ c ≤ 'f' then some (c.toNat - 'a'.toNat + 10)
  else if 'A' ≤ c ∧ c ≤ 'F' then some (c.toNat - 'A'.toNat + 10)
  else none

/-- Decimal digit test. -/
def isDigitCh (c : Char) : Bool := '0' ≤ c && c ≤ '9'

/-- Greedily read decimal digits, requiring at least one. -/
def parseDigits : List Char → Nat → Option (Nat × List Char)
  | c :: rest, acc =>
      if isDigitCh c then
        match parseDigits rest (acc * 10 + (c.toNat - '0'.toNat)) with
        | some r => some r
        | none => some (acc * 10 + (c.toNat - '0'.toNat), rest)
      else none
  | [], _ => none

/-- Parse a JSON integer number (optional leading minus). -/
def parseNum : List Char → Option (Json × List Char)
  | '-' :: rest => do
      let (n, r) ← parseDigits rest 0
      pure (Json.num (-(n : Int)), r)
  | cs => do
      let (n, r) ← parseDigits cs 0
      pure (Json.num (n : Int), r)

mutual

/-- Fuelled recursive-descent parser for one JSON value. -/
def parseValueF : Nat → List Char → Option (Json × List Char)
  | 0, _ => none
  | f + 1, cs =>
    match skipWs cs with
    | 'n' :: 'u' :: 'l' :: 'l' :: rest => some (Json.null, rest)
    | 't' :: 'r' :: 'u' :: 'e' :: rest => some (Json.bool true, rest)
    | 'f' :: 'a' :: 'l' :: 's' :: 'e' :: rest => some (Json.bool false, rest)
    | '"' :: rest => do
        let (s, r) ← parseStringAux rest
        pure (Json.str (String.mk s), r)
    | '[' :: rest =>
        (match skipWs rest with
         | ']' :: r2 => some (Json.arr [], r2)
         | cs2 => do
             let (xs, r2) ← parseItemsF f cs2
             pure (Json.arr xs, r2))
    | '{' :: rest =>
        (match skipWs rest with
         | '}' :: r2 => some (Json.obj [], r2)
         | cs2 => do
             let (fs, r2) ← parseFieldsF f cs2
             pure (Json.obj fs, r2))
    | cs2 => parseNum cs2
termination_by structural f => f

/-- Fuelled parser for one-or-more array items up to the closing bracket. -/
def parseItemsF : Nat → List Char → Option (List Json × List Char)
  | 0, _ => none
  | f + 1, cs => do
      let (v, r) ← parseValueF f cs
      match skipWs r with
      | ',' :: r2 => do
          let (vs, r3) ← parseItemsF f r2
          pure (v :: vs, r3)
      | ']' :: r2 => pure ([v], r2)
      | _ => none
termination_by structural f => f

/-- Fuelled parser for one-or-more object fields up to the closing brace. -/
def parseFieldsF : Nat → List Char → Option (List (String × Json) × List Char)
  | 0, _ => none
  | f + 1, cs => do
      match skipWs cs with
      | '"' :: rest => do
          let (k, r) ← parseStringAux rest
          match skipWs r with
          | ':' :: r2 => do
              let (v, r3) ← parseValueF f r2
              match skipWs r3 with
              | ',' :: r4 => do
                  let (fs, r5) ← parseFieldsF f r4
                  pure ((String.mk k, v) :: fs, r5)
              | '}' :: r4 => pure ([(String.mk k, v)], r4)
              | _ => none
          | _ => none
      | _ => none
termination_by structural f => f

end

/-- Parse a whole string as a JSON document, modelling `serde_json`
deserialization of a response body into a `Value`. -/
def parseJson (s : String) : Option Json :=
  match parseValueF (s.length + 1) s.data with
  | some (j, rest) => if skipWs rest = [] then some j else none
  | none => none

/-- Look up a field of a JSON object (first occurrence of the key);
non-objects have no fields. -/
def Json.getField? (j : Json) (key : String) : Option Json :=
  match j with
  | .obj fields => fields.lookup key
  | _ => none

/-- Extract the string payload of a JSON string value. -/
def Json.asString? : Json → Option String
  | .str s => some s
  | _ => none

/-- Modelled from the spec: blockchain addresses (`alloy_primitives::Address`,
a 160-bit account identifier) are modelled as natural numbers below 2^160. -/
abbrev Address := Nat

/-- Modelled from the spec: the `Display` rendering of an address used for
`signer_address.to_string()` — a 0x-prefixed 40-hex-digit string. -/
def addrToString (a : Address) : String :=
  let ds := Nat.toDigits 16 a
  "0x" ++ String.mk (List.replicate (40 - ds.length) '0' ++ ds)

/-- Modelled from the spec: the error taxonomy of `OdosError` (section 7 of
the design document): construction/transport-init, quote request,
transaction assembly, transport, decoding, and hex-decode errors, each
carrying a message. -/
inductive OdosError where
  | configError (msg : String) : OdosError
  | quoteRequestError (msg : String) : OdosError
  | transactionAssemblyError (msg : String) : OdosError
  | transportError (msg : String) : OdosError
  | decodingError (msg : String) : OdosError
  | hexDecodeError (msg : String) : OdosError
deriving Repr, DecidableEq

/-- An HTTP response as the client observes it (`reqwest::Response`):
the status code, and the body read, which is best-effort — `none` models
a failed body read. -/
structure HttpResponse where
  status : Nat
  body : Option String
deriving Repr, DecidableEq

/-- Success test on a status code, modelling
`http::StatusCode::is_success` (2xx). -/
def isSuccess (status : Nat) : Bool := 200 ≤ status && status < 300

/-- Rendering of a status code into an error message.  (reqwest's
`Display` also appends the canonical reason phrase; the claims under
verification only concern the numeric code, which this rendering
carries.) -/
def statusDisplay (status : Nat) : String := toString status

/-- Modelled from the spec: a quote request — caller-supplied swap
parameters (input/output tokens, amount, chain), constructed by the caller
and passed through opaquely; the client enforces no structure on it. -/
structure QuoteRequest where
  chainId : Nat
  inputToken : String
  outputToken : String
  amount : String
deriving Repr, DecidableEq

/-- Modelled from the spec: a single quote response — the server's
candidate route for the swap, including the path identifier later
exchanged for an executable transaction. -/
structure SingleQuoteResponse where
  pathId : String
deriving Repr, DecidableEq

/-- Modelled from the spec: an assemble request — signer address rendering
(`userAddr`), path identifier, simulate flag, optional receiver. -/
structure AssembleRequest where
  user_addr : String
  path_id : String
  simulate : Bool
  receiver : Option Address
deriving Repr, DecidableEq

/-- Modelled from the spec: the transaction-data payload of an assembly
response — raw call data (`data`, a hex string), native-currency value
(`value`, a numeric string), and the target contract linkage (`to`). -/
structure TransactionData where
  «to» : String
  data : String
  value : String
deriving Repr, DecidableEq

/-- Modelled from the spec: an assembly response — the transaction data
plus auxiliary simulation metadata, which is unused and not modelled. -/
structure AssemblyResponse where
  transaction : TransactionData
deriving Repr, DecidableEq

/-- Modelled from the spec: a swap context — signer address, output
recipient, path identifier, and router address. -/
structure SwapContext where
  signer_address : Address
  output_recipient : Address
  path_id : String
  router_address : Address

/-- Deserialization of `serde_json::Value` into `TransactionData`
(serde derive semantics: required fields must be present with the right
type, unknown fields are ignored). -/
def decodeTransactionData (j : Json) : Option TransactionData := do
  let t ← (← j.getField? "to").asString?
  let data ← (← j.getField? "data").asString?
  let value ← (← j.getField? "value").asString?
  pure ⟨t, data, value⟩

/-- Deserialization of `serde_json::Value` into `AssemblyResponse`:
the `transaction` field is required; all other fields are ignored. -/
def decodeAssemblyResponse (j : Json) : Option AssemblyResponse := do
  let t ← j.getField? "transaction"
  let td ← decodeTransactionData t
  pure ⟨td⟩

/-- Deserialization of `serde_json::Value` into `SingleQuoteResponse`:
the `pathId` field is required; all other fields are ignored. -/
def decodeSingleQuoteResponse (j : Json) : Option SingleQuoteResponse := do
  let p ← (← j.getField? "pathId").asString?
  pure ⟨p⟩

/-- Hex-decode pairs of digits into bytes; an odd-length tail or a
non-hex character fails. -/
def hexPairs : List Char → Option (List Nat)
  | [] => some []
  | [_] => none
  | a :: b :: rest => do
      let hi ← hexDigit? a
      let lo ← hexDigit? b
      let t ← hexPairs rest
      pure ((hi * 16 + lo) :: t)

/-- Hex decoding of a string into bytes, modelling
`alloy_primitives::hex::decode`: an optional `0x`/`0X` head is stripped,
then the digits are decoded pairwise. -/
def hexDecode (s : String) : Option (List Nat) :=
  let cs := s.data
  let cs := if cs.take 2 = ['0', 'x'] ∨ cs.take 2 = ['0', 'X'] then cs.drop 2 else cs
  hexPairs cs

/-- Hex digits of a string folded into a number (`none` on a non-hex
character or an empty string). -/
def hexNat? (cs : List Char) (acc : Nat) : Option Nat :=
  match cs with
  | [] => some acc
  | c :: rest => do
      let d ← hexDigit? c
      hexNat? rest (acc * 16 + d)

/-- Decimal digits folded into a number (`none` on a non-digit
character). -/
def decNat? (cs : List Char) (acc : Nat) : Option Nat :=
  match cs with
  | [] => some acc
  | c :: rest =>
      if isDigitCh c then decNat? rest (acc * 10 + (c.toNat - '0'.toNat)) else none

/-- Modelled from the spec: the external value-parsing helper
`parse_value`, converting a decimal-string or 0x-hex numeric field into
the chain-native numeric value type.  It is total: the source applies it
with no error branch, so unparseable input is modelled as zero. -/
def parse_value (s : String) : Nat :=
  if s.data.take 2 = ['0', 'x'] then (hexNat? (s.data.drop 2) 0).getD 0
  else match decNat? s.data 0 with
       | some n => n
       | none => 0

/-- Modelled from the spec: `OdosHttpClient::execute_with_retry` — the
transport/retry helper.  Its retry policy is opaque; what is visible at
this layer is its outcome: either a delivered HTTP response, or a
transport-level error after retries are exhausted, which surfaces as the
transport error kind.  The outcome is the shallow embedding of one
awaited call. -/
def execute_with_retry (outcome : Except String HttpResponse) : Except OdosError HttpResponse :=
  match outcome with
  | .ok resp => .ok resp
  | .error e => .error (.transportError e)

/-- Modelling `reqwest::Response::text()`: the best-effort body read,
falling back to the given placeholder when the read fails. -/
def bodyTextOr (resp : HttpResponse) (fallback : String) : String :=
  resp.body.getD fallback

/-- Modelling `reqwest::Response::json::<T>()` followed by the decoding
error conversion: read the body, parse it as JSON, then deserialize with
the given typed decoder; every failure is a decoding error. -/
def responseJson {α : Type} (decode : Json → Option α) (resp : HttpResponse) :
    Except OdosError α :=
  match resp.body with
  | none => .error (.decodingError "failed to read response body")
  | some b =>
    match parseJson b with
    | none => .error (.decodingError "invalid JSON in response body")
    | some j =>
      match decode j with
      | none => .error (.decodingError "response body does not match the expected shape")
      | some a => .ok a

/-- `OdosSorV2::get_swap_quote` (src/sor.rs:45-75): POST the quote request
to the quote endpoint through the retry wrapper; on 2xx deserialize the
body as a `SingleQuoteResponse`; otherwise read the body as text (with
the `"Unknown error"` fallback) and fail with a quote-request error
carrying the status and body.  `net` is the mocked transport: the
response the endpoint yields for the serialized request. -/
def get_swap_quote (net : QuoteRequest → Except String HttpResponse)
    (quote_request : QuoteRequest) : Except OdosError SingleQuoteResponse :=
  match execute_with_retry (net quote_request) with
  | .error e => .error e
  | .ok response =>
    if isSuccess response.status then
      responseJson decodeSingleQuoteResponse response
    else
      let status := response.status
      let error_text := bodyTextOr response "Unknown error"
      .error (.quoteRequestError
        ("API error (status: " ++ statusDisplay status ++ "): " ++ error_text))

/-- `OdosSorV2::get_assemble_response` (src/sor.rs:77-91): POST the
assemble request to the assemble endpoint through the retry wrapper and
return the raw, undecoded response. -/
def get_assemble_response (net : AssembleRequest → Except String HttpResponse)
    (assemble_request : AssembleRequest) : Except OdosError HttpResponse :=
  execute_with_retry (net assemble_request)

/-- The assemble request constructed by `assemble_tx_data`
(src/sor.rs:101-106). -/
def mkAssembleRequest (signer_address output_recipient : Address) (path_id : String) :
    AssembleRequest :=
  { user_addr := addrToString signer_address
    path_id := path_id
    simulate := false
    receiver := some output_recipient }

/-- The status branch and two-stage decode of `assemble_tx_data`
(src/sor.rs:108-126), as a function of the low-level assemble outcome:
on a non-success status, read the body as text (with the
`"Failed to get error message"` fallback) and fail with a
transaction-assembly error carrying status and body; on success parse
the body as a generic JSON value, deserialize it into an
`AssemblyResponse`, and return its transaction field. -/
def assembleFromResponse (outcome : Except OdosError HttpResponse) :
    Except OdosError TransactionData :=
  match outcome with
  | .error e => .error e
  | .ok response =>
    if !(isSuccess response.status) then
      let status := response.status
      let error := bodyTextOr response "Failed to get error message"
      .error (.transactionAssemblyError
        ("API error (status: " ++ statusDisplay status ++ "): " ++ error))
    else
      match responseJson some response with
      | .error e => .error e
      | .ok value =>
        match decodeAssemblyResponse value with
        | none => .error (.decodingError "response body does not match the expected shape")
        | some ar => .ok ar.transaction

/-- `OdosSorV2::assemble_tx_data` (src/sor.rs:93-127): build the assemble
request (`simulate = false`, the given receiver, the rendered signer
address, the given path id), delegate to the low-level assemble call,
then branch and decode. -/
def assemble_tx_data (net : AssembleRequest → Except String HttpResponse)
    (signer_address output_recipient : Address) (path_id : String) :
    Except OdosError TransactionData :=
  assembleFromResponse
    (get_assemble_response net (mkAssembleRequest signer_address output_recipient path_id))

/-- The alloy `TransactionRequest` fragment this client populates:
`with_input`, `with_value`, `with_to`, `with_from` set the respective
fields; gas price, gas limit, and nonce exist but are never set here. -/
structure TransactionRequest where
  input : Option (List Nat)
  value : Option Nat
  «to» : Option Address
  sender : Option Address
  gas_price : Option Nat
  gas : Option Nat
  nonce : Option Nat
deriving Repr, DecidableEq

/-- `TransactionRequest::default()`: every field unset. -/
def TransactionRequest.default : TransactionRequest :=
  { input := none, value := none, «to» := none, sender := none
    gas_price := none, gas := none, nonce := none }

/-- `OdosSorV2::build_base_transaction` (src/sor.rs:129-149): assemble the
transaction data for the swap context, hex-decode its `data` field (a
failure is the hex-decode error kind, propagated), parse its `value`
field with the total helper, and populate input, value, destination and
sender of a default transaction request. -/
def build_base_transaction (net : AssembleRequest → Except String HttpResponse)
    (swap : SwapContext) : Except OdosError TransactionRequest :=
  match assemble_tx_data net swap.signer_address swap.output_recipient swap.path_id with
  | .error e => .error e
  | .ok td =>
    match hexDecode td.data with
    | none => .error (.hexDecodeError "invalid hex string")
    | some bytes =>
      .ok { TransactionRequest.default with
              input := some bytes
              value := some (parse_value td.value)
              «to» := some swap.router_address
              sender := some swap.signer_address }

/-- Substring containment: `sub` occurs contiguously in `m`. -/
def ContainsStr (m sub : String) : Prop :=
  ∃ p q : String, m = p ++ sub ++ q

theorem string_append_assoc (a b c : String) : a ++ b ++ c = a ++ (b ++ c) := by
  cases a with
  | mk xs =>
    cases b with
    | mk ys =>
      cases c with
      | mk zs =>
        show String.mk (xs ++ ys ++ zs) = String.mk (xs ++ (ys ++ zs))
        rw [List.append_assoc]

theorem string_append_empty (a : String) : a ++ "" = a := by
  cases a with
  | mk xs =>
    show String.mk (xs ++ []) = String.mk xs
    rw [List.append_nil]

theorem containsStr_end (p sub : String) : ContainsStr (p ++ sub) sub :=
  ⟨p, "", by rw [string_append_empty]⟩

theorem containsStr_middle (p sub q : String) : ContainsStr (p ++ sub ++ q) sub :=
  ⟨p, q, rfl⟩

/-- The quote call on a delivered non-2xx response, unfolded. -/
theorem get_swap_quote_non2xx (net : QuoteRequest → Except String HttpResponse)
    (q : QuoteRequest) (resp : HttpResponse)
    (hnet : net q = .ok resp) (hst : isSuccess resp.status = false) :
    get_swap_quote net q =
      .error (.quoteRequestError
        ("API error (status: " ++ statusDisplay resp.status ++ "): " ++
          bodyTextOr resp "Unknown error")) := by
  simp [get_swap_quote, execute_with_retry, hnet, hst]

/-- The assemble pipeline on a delivered non-2xx response, unfolded. -/
theorem assemble_tx_data_non2xx (net : AssembleRequest → Except String HttpResponse)
    (s r : Address) (p : String) (resp : HttpResponse)
    (hnet : net (mkAssembleRequest s r p) = .ok resp)
    (hst : isSuccess resp.status = false) :
    assemble_tx_data net s r p =
      .error (.transactionAssemblyError
        ("API error (status: " ++ statusDisplay resp.status ++ "): " ++
          bodyTextOr resp "Failed to get error message")) := by
  simp [assemble_tx_data, get_assemble_response, execute_with_retry, hnet,
    assembleFromResponse, hst]

/-- The assemble pipeline on a delivered 2xx response with a readable
body, unfolded to the two decoding stages. -/
theorem assemble_tx_data_2xx (net : AssembleRequest → Except String HttpResponse)
    (s r : Address) (p : String) (resp : HttpResponse) (b : String)
    (hnet : net (mkAssembleRequest s r p) = .ok resp)
    (hst : isSuccess resp.status = true) (hb : resp.body = some b) :
    assemble_tx_data net s r p =
      match parseJson b with
      | none => .error (.decodingError "invalid JSON in response body")
      | some j =>
        match decodeAssemblyResponse j with
        | none => .error (.decodingError "response body does not match the expected shape")
        | some ar => .ok ar.transaction := by
  simp only [assemble_tx_data, get_assemble_response, execute_with_retry, hnet,
    assembleFromResponse, hst, Bool.not_true, Bool.false_eq_true, if_false,
    responseJson, hb]
  cases parseJson b with
  | none => rfl
  | some j => cases decodeAssemblyResponse j <;> rfl

/-- C2: for every quote request, a delivered non-2xx response makes
`get_swap_quote` fail with a quote-request error whose message contains
the status code and the body text; when the body read fails, the
placeholder `"Unknown error"` stands in for the body and the error kind
is unchanged. -/
theorem C2_quote_non2xx_error (net : QuoteRequest → Except String HttpResponse)
    (q : QuoteRequest) (resp : HttpResponse)
    (hnet : net q = .ok resp) (hst : isSuccess resp.status = false) :
    (∀ b, resp.body = some b →
      ∃ m, get_swap_quote net q = .error (.quoteRequestError m) ∧
        ContainsStr m (statusDisplay resp.status) ∧ ContainsStr m b) ∧
    (resp.body = none →
      get_swap_quote net q = .error (.quoteRequestError
        ("API error (status: " ++ statusDisplay resp.status ++ "): " ++
          "Unknown error"))) := by
  constructor
  · intro b hb
    refine ⟨"API error (status: " ++ statusDisplay resp.status ++ "): " ++ b, ?_, ?_, ?_⟩
    · rw [get_swap_quote_non2xx net q resp hnet hst]
      simp [bodyTextOr, hb]
    · exact ⟨"API error (status: ", "): " ++ b, by rw [string_append_assoc]⟩
    · exact containsStr_end ("API error (status: " ++ statusDisplay resp.status ++ "): ") b
  · intro hb
    rw [get_swap_quote_non2xx net q resp hnet hst]
    simp [bodyTextOr, hb]

/-- Witness for C2 at a concrete mocked 404 response. -/
theorem C2_quote_non2xx_error_witness :
    ∃ m, get_swap_quote (fun _ => .ok ⟨404, some "bad request body"⟩) ⟨1, "A", "B", "10"⟩ =
        .error (.quoteRequestError m) ∧
      ContainsStr m (statusDisplay 404) ∧ ContainsStr m "bad request body" :=
  (C2_quote_non2xx_error (fun _ => .ok ⟨404, some "bad request body"⟩) ⟨1, "A", "B", "10"⟩
    ⟨404, some "bad request body"⟩ rfl rfl).1 "bad request body" rfl

/-- C3: for every signer, recipient and path id, a delivered non-2xx
assemble response makes `assemble_tx_data` fail with a
transaction-assembly error whose message contains the status code and
the body text (placeholder `"Failed to get error message"` when the body
read fails); the body is never decoded: the same error results for every
body string, well-formed JSON or not. -/
theorem C3_assemble_non2xx_error (net : AssembleRequest → Except String HttpResponse)
    (s r : Address) (p : String) (resp : HttpResponse)
    (hnet : net (mkAssembleRequest s r p) = .ok resp)
    (hst : isSuccess resp.status = false) :
    (∀ b, resp.body = some b →
      ∃ m, assemble_tx_data net s r p = .error (.transactionAssemblyError m) ∧
        ContainsStr m (statusDisplay resp.status) ∧ ContainsStr m b) ∧
    (resp.body = none →
      assemble_tx_data net s r p = .error (.transactionAssemblyError
        ("API error (status: " ++ statusDisplay resp.status ++ "): " ++
          "Failed to get error message"))) := by
  constructor
  · intro b hb
    refine ⟨"API error (status: " ++ statusDisplay resp.status ++ "): " ++ b, ?_, ?_, ?_⟩
    · rw [assemble_tx_data_non2xx net s r p resp hnet hst]
      simp [bodyTextOr, hb]
    · exact ⟨"API error (status: ", "): " ++ b, by rw [string_append_assoc]⟩
    · exact containsStr_end ("API error (status: " ++ statusDisplay resp.status ++ "): ") b
  · intro hb
    rw [assemble_tx_data_non2xx net s r p resp hnet hst]
    simp [bodyTextOr, hb]

/-- Witness for C3 at a concrete mocked 500 response whose body is not
even JSON. -/
theorem C3_assemble_non2xx_error_witness :
    ∃ m, assemble_tx_data (fun _ => .ok ⟨500, some "upstream exploded"⟩) 1 2 "path-1" =
        .error (.transactionAssemblyError m) ∧
      ContainsStr m (statusDisplay 500) ∧ ContainsStr m "upstream exploded" :=
  (C3_assemble_non2xx_error (fun _ => .ok ⟨500, some "upstream exploded"⟩) 1 2 "path-1"
    ⟨500, some "upstream exploded"⟩ rfl rfl).1 "upstream exploded" rfl

/-- C4: `get_assemble_response` returns the raw delivered response
unchanged — a non-2xx status is still `Ok` — and fails exactly when the
transport fails after retries, with the transport error kind. -/
theorem C4_get_assemble_response_raw (net : AssembleRequest → Except String HttpResponse)
    (req : AssembleRequest) :
    get_assemble_response net req = Except.mapError OdosError.transportError (net req) ∧
    (∀ resp, net req = .ok resp → get_assemble_response net req = .ok resp) ∧
    (∀ e, net req = .error e →
      get_assemble_response net req = .error (.transportError e)) := by
  refine ⟨?_, ?_, ?_⟩
  · cases h : net req <;> simp [get_assemble_response, execute_with_retry, h, Except.mapError]
  · intro resp h
    simp [get_assemble_response, execute_with_retry, h]
  · intro e h
    simp [get_assemble_response, execute_with_retry, h]

/-- Witness for C4: a mocked 503 response is handed back as `Ok`. -/
theorem C4_get_assemble_response_raw_witness :
    get_assemble_response (fun _ => .ok ⟨503, some "unavailable"⟩)
        (mkAssembleRequest 1 2 "p") = .ok ⟨503, some "unavailable"⟩ :=
  (C4_get_assemble_response_raw (fun _ => .ok ⟨503, some "unavailable"⟩)
    (mkAssembleRequest 1 2 "p")).2.1 ⟨503, some "unavailable"⟩ rfl

/-- C6: `assemble_tx_data` builds its assemble request with
`simulate = false`, `receiver` the given output recipient, `user_addr`
the string rendering of the signer address and `path_id` the given path
identifier, and delegates to the low-level assemble call on exactly that
request. -/
theorem C6_assemble_request_construction (net : AssembleRequest → Except String HttpResponse)
    (s r : Address) (p : String) :
    (mkAssembleRequest s r p).simulate = false ∧
    (mkAssembleRequest s r p).receiver = some r ∧
    (mkAssembleRequest s r p).user_addr = addrToString s ∧
    (mkAssembleRequest s r p).path_id = p ∧
    assemble_tx_data net s r p =
      assembleFromResponse (get_assemble_response net (mkAssembleRequest s r p)) :=
  ⟨rfl, rfl, rfl, rfl, rfl⟩

/-- The quote call on a delivered 2xx response, unfolded to the body
decoding step. -/
theorem get_swap_quote_2xx (net : QuoteRequest → Except String HttpResponse)
    (q : QuoteRequest) (resp : HttpResponse)
    (hnet : net q = .ok resp) (hst : isSuccess resp.status = true) :
    get_swap_quote net q = responseJson decodeSingleQuoteResponse resp := by
  simp only [get_swap_quote, execute_with_retry, hnet, hst, if_true]

/-- C5: for every quote request, a delivered 2xx response whose body
parses and deserializes as a quote response yields exactly that decoded
quote response; a 2xx body that fails to parse or deserialize yields a
decoding error, a kind distinct from the transport and quote-request
(HTTP) error kinds. -/
theorem C5_quote_success_decode (net : QuoteRequest → Except String HttpResponse)
    (q : QuoteRequest) (resp : HttpResponse) (b : String)
    (hnet : net q = .ok resp) (hst : isSuccess resp.status = true)
    (hb : resp.body = some b) :
    (∀ qr, (parseJson b).bind decodeSingleQuoteResponse = some qr →
      get_swap_quote net q = .ok qr) ∧
    ((parseJson b).bind decodeSingleQuoteResponse = none →
      ∃ m, get_swap_quote net q = .error (.decodingError m)) ∧
    (∀ m m', OdosError.decodingError m ≠ OdosError.transportError m' ∧
      OdosError.decodingError m ≠ OdosError.quoteRequestError m') := by
  rw [get_swap_quote_2xx net q resp hnet hst]
  refine ⟨?_, ?_, fun m m' => ⟨fun h => OdosError.noConfusion h,
    fun h => OdosError.noConfusion h⟩⟩
  · intro qr hqr
    obtain ⟨j, hj, hd⟩ := Option.bind_eq_some.mp hqr
    simp [responseJson, hb, hj, hd]
  · intro hnone
    cases hj : parseJson b with
    | none =>
      exact ⟨"invalid JSON in response body", by simp [responseJson, hb, hj]⟩
    | some j =>
      rw [hj] at hnone
      simp only [Option.some_bind] at hnone
      exact ⟨"response body does not match the expected shape",
        by simp [responseJson, hb, hj, hnone]⟩

/-- Witness for C5 at a concrete mocked 200 response carrying a
well-formed quote-response body with an extra field. -/
theorem C5_quote_success_decode_witness :
    get_swap_quote
        (fun _ => .ok ⟨200, some "\x7b\"pathId\":\"route-7\",\"extra\":1\x7d"⟩) ⟨1, "A", "B", "10"⟩ = .ok ⟨"route-7"⟩ :=
  (C5_quote_success_decode (fun _ => .ok ⟨200, some "\x7b\"pathId\":\"route-7\",\"extra\":1\x7d"⟩) ⟨1, "A", "B", "10"⟩
    ⟨200, some "\x7b\"pathId\":\"route-7\",\"extra\":1\x7d"⟩ "\x7b\"pathId\":\"route-7\",\"extra\":1\x7d" rfl rfl rfl).1 ⟨"route-7"⟩ (by rfl)

/-- C7: on a delivered 2xx assemble response the body is decoded in two
stages — generic JSON parse, then typed deserialization — and only the
transaction field is returned; a JSON body missing a required
transaction field gives a decoding error (a total, typed failure), while
extra object fields never make the typed stage fail. -/
theorem C7_assembly_two_stage_decode (net : AssembleRequest → Except String HttpResponse)
    (s r : Address) (p : String) (resp : HttpResponse) (b : String)
    (hnet : net (mkAssembleRequest s r p) = .ok resp)
    (hst : isSuccess resp.status = true) (hb : resp.body = some b) :
    (assemble_tx_data net s r p =
      match parseJson b with
      | none => .error (.decodingError "invalid JSON in response body")
      | some j =>
        match decodeAssemblyResponse j with
        | none => .error (.decodingError "response body does not match the expected shape")
        | some ar => .ok ar.transaction) ∧
    (∀ j, parseJson b = some j → decodeAssemblyResponse j = none →
      assemble_tx_data net s r p =
        .error (.decodingError "response body does not match the expected shape")) ∧
    (∀ fields t td, Json.getField? (Json.obj fields) "transaction" = some t →
      decodeTransactionData t = some td →
      decodeAssemblyResponse (Json.obj fields) = some ⟨td⟩) := by
  refine ⟨assemble_tx_data_2xx net s r p resp b hnet hst hb, ?_, ?_⟩
  · intro j hj hd
    rw [assemble_tx_data_2xx net s r p resp b hnet hst hb, hj]
    simp [hd]
  · intro fields t td h1 h2
    simp [decodeAssemblyResponse, h1, h2]

/-- Witness for C7: a 2xx body that is valid JSON but whose transaction
object lacks the required `value` field fails with a decoding error. -/
theorem C7_assembly_two_stage_decode_witness :
    assemble_tx_data
        (fun _ => .ok ⟨200, some "\x7b\"transaction\":\x7b\"to\":\"0x5\",\"data\":\"0x12\"\x7d\x7d"⟩) 1 2 "p" =
      .error (.decodingError "response body does not match the expected shape") :=
  (C7_assembly_two_stage_decode (fun _ => .ok ⟨200, some "\x7b\"transaction\":\x7b\"to\":\"0x5\",\"data\":\"0x12\"\x7d\x7d"⟩) 1 2 "p"
    ⟨200, some "\x7b\"transaction\":\x7b\"to\":\"0x5\",\"data\":\"0x12\"\x7d\x7d"⟩ "\x7b\"transaction\":\x7b\"to\":\"0x5\",\"data\":\"0x12\"\x7d\x7d" rfl rfl rfl).2.1
    (Json.obj [("transaction",
      Json.obj [("to", Json.str "0x5"), ("data", Json.str "0x12")])]) (by rfl) (by rfl)

/-- C1: for every swap context, a delivered 2xx assembly response whose
transaction object carries `data = "0x1234"` and
`value = "1000000000000000000"` makes `build_base_transaction` return a
transaction request with input bytes `[0x12, 0x34]`, value `10 ^ 18`,
destination the context's router address and sender the context's
signer address. -/
theorem C1_build_base_transaction_ok (net : AssembleRequest → Except String HttpResponse)
    (swap : SwapContext) (resp : HttpResponse) (b t0 : String)
    (hnet : net (mkAssembleRequest swap.signer_address swap.output_recipient swap.path_id) =
      .ok resp)
    (hst : isSuccess resp.status = true) (hb : resp.body = some b)
    (hdec : (parseJson b).bind decodeAssemblyResponse =
      some ⟨⟨t0, "0x1234", "1000000000000000000"⟩⟩) :
    build_base_transaction net swap =
      .ok ⟨some [0x12, 0x34], some (10 ^ 18), some swap.router_address,
        some swap.signer_address, none, none, none⟩ := by
  obtain ⟨j, hj, hd⟩ := Option.bind_eq_some.mp hdec
  have hhex : hexDecode "0x1234" = some [0x12, 0x34] := by decide
  have hval : parse_value "1000000000000000000" = 10 ^ 18 := by decide
  rw [build_base_transaction,
    assemble_tx_data_2xx net swap.signer_address swap.output_recipient swap.path_id
      resp b hnet hst hb]
  simp [hj, hd, hhex, hval, TransactionRequest.default]

/-- Witness for C1 at a fully concrete swap context and mocked 200
assembly response. -/
theorem C1_build_base_transaction_ok_witness :
    build_base_transaction
        (fun _ => .ok ⟨200, some "\x7b\"transaction\":\x7b\"to\":\"0x5\",\"data\":\"0x1234\",\"value\":\"1000000000000000000\"\x7d\x7d"⟩) ⟨1, 2, "pid-1", 3⟩ =
      .ok ⟨some [0x12, 0x34], some (10 ^ 18), some 3, some 1, none, none, none⟩ :=
  C1_build_base_transaction_ok (fun _ => .ok ⟨200, some "\x7b\"transaction\":\x7b\"to\":\"0x5\",\"data\":\"0x1234\",\"value\":\"1000000000000000000\"\x7d\x7d"⟩) ⟨1, 2, "pid-1", 3⟩
    ⟨200, some "\x7b\"transaction\":\x7b\"to\":\"0x5\",\"data\":\"0x1234\",\"value\":\"1000000000000000000\"\x7d\x7d"⟩ "\x7b\"transaction\":\x7b\"to\":\"0x5\",\"data\":\"0x1234\",\"value\":\"1000000000000000000\"\x7d\x7d" "0x5" rfl rfl rfl (by rfl)

/-- C8: for every swap context, a successful assembly whose `data` field
is not valid hex makes `build_base_transaction` fail with the hex-decode
error kind — distinct from every other error kind — and construct no
transaction request. -/
theorem C8_malformed_hex_error (net : AssembleRequest → Except String HttpResponse)
    (swap : SwapContext) (resp : HttpResponse) (b : String) (td : TransactionData)
    (hnet : net (mkAssembleRequest swap.signer_address swap.output_recipient swap.path_id) =
      .ok resp)
    (hst : isSuccess resp.status = true) (hb : resp.body = some b)
    (hdec : (parseJson b).bind decodeAssemblyResponse = some ⟨td⟩)
    (hhex : hexDecode td.data = none) :
    build_base_transaction net swap = .error (.hexDecodeError "invalid hex string") ∧
    (∀ m m', OdosError.hexDecodeError m ≠ OdosError.decodingError m' ∧
      OdosError.hexDecodeError m ≠ OdosError.transportError m' ∧
      OdosError.hexDecodeError m ≠ OdosError.transactionAssemblyError m' ∧
      OdosError.hexDecodeError m ≠ OdosError.quoteRequestError m') := by
  obtain ⟨j, hj, hd⟩ := Option.bind_eq_some.mp hdec
  refine ⟨?_, fun m m' => ⟨fun h => OdosError.noConfusion h, fun h => OdosError.noConfusion h,
    fun h => OdosError.noConfusion h, fun h => OdosError.noConfusion h⟩⟩
  rw [build_base_transaction,
    assemble_tx_data_2xx net swap.signer_address swap.output_recipient swap.path_id
      resp b hnet hst hb]
  simp [hj, hd, hhex]

/-- Witness for C8 at a mocked assembly response whose `data` field has
odd length. -/
theorem C8_malformed_hex_error_witness :
    build_base_transaction
        (fun _ => .ok ⟨200, some "\x7b\"transaction\":\x7b\"to\":\"0x5\",\"data\":\"0x123\",\"value\":\"5\"\x7d\x7d"⟩) ⟨1, 2, "pid-1", 3⟩ =
      .error (.hexDecodeError "invalid hex string") :=
  (C8_malformed_hex_error (fun _ => .ok ⟨200, some "\x7b\"transaction\":\x7b\"to\":\"0x5\",\"data\":\"0x123\",\"value\":\"5\"\x7d\x7d"⟩) ⟨1, 2, "pid-1", 3⟩
    ⟨200, some "\x7b\"transaction\":\x7b\"to\":\"0x5\",\"data\":\"0x123\",\"value\":\"5\"\x7d\x7d"⟩ "\x7b\"transaction\":\x7b\"to\":\"0x5\",\"data\":\"0x123\",\"value\":\"5\"\x7d\x7d" ⟨"0x5", "0x123", "5"⟩ rfl rfl rfl (by rfl)
    (by decide)).1

/-- C9: whenever `build_base_transaction` succeeds, the returned
transaction request leaves gas price, gas limit and nonce unset, and has
input, value, destination and sender populated. -/
theorem C9_gas_fields_unset (net : AssembleRequest → Except String HttpResponse)
    (swap : SwapContext) (tr : TransactionRequest)
    (h : build_base_transaction net swap = .ok tr) :
    tr.gas_price = none ∧ tr.gas = none ∧ tr.nonce = none ∧
    tr.input.isSome ∧ tr.value.isSome ∧ tr.«to».isSome ∧ tr.sender.isSome := by
  cases ha : assemble_tx_data net swap.signer_address swap.output_recipient swap.path_id with
  | error e => rw [build_base_transaction, ha] at h; exact Except.noConfusion h
  | ok td =>
    rw [build_base_transaction, ha] at h
    cases hh : hexDecode td.data with
    | none => simp [hh] at h
    | some bytes =>
      simp only [hh, TransactionRequest.default] at h
      injection h with h2
      subst h2
      exact ⟨rfl, rfl, rfl, rfl, rfl, rfl, rfl⟩

/-- Witness for C9 at the concrete successful run of a mocked assembly
response. -/
theorem C9_gas_fields_unset_witness :
    (⟨some [0x12, 0x34], some (10 ^ 18), some 3, some 1, none, none, none⟩ :
        TransactionRequest).gas_price = none ∧
    (⟨some [0x12, 0x34], some (10 ^ 18), some 3, some 1, none, none, none⟩ :
        TransactionRequest).gas = none ∧
    (⟨some [0x12, 0x34], some (10 ^ 18), some 3, some 1, none, none, none⟩ :
        TransactionRequest).nonce = none ∧
    (⟨some [0x12, 0x34], some (10 ^ 18), some 3, some 1, none, none, none⟩ :
        TransactionRequest).input.isSome ∧
    (⟨some [0x12, 0x34], some (10 ^ 18), some 3, some 1, none, none, none⟩ :
        TransactionRequest).value.isSome ∧
    (⟨some [0x12, 0x34], some (10 ^ 18), some 3, some 1, none, none, none⟩ :
        TransactionRequest).«to».isSome ∧
    (⟨some [0x12, 0x34], some (10 ^ 18), some 3, some 1, none, none, none⟩ :
        TransactionRequest).sender.isSome :=
  C9_gas_fields_unset (fun _ => .ok ⟨200, some "\x7b\"transaction\":\x7b\"to\":\"0x5\",\"data\":\"0x1234\",\"value\":\"1000000000000000000\"\x7d\x7d"⟩) ⟨1, 2, "pid-1", 3⟩
    ⟨some [0x12, 0x34], some (10 ^ 18), some 3, some 1, none, none, none⟩ (by rfl)

/-- C10: whenever the assembled `data` field hex-decodes,
`build_base_transaction` returns `Ok` with value
`parse_value` of the `value` string, applied unconditionally: there is
no error branch on the `value` string, so a malformed `value` — unlike a
malformed `data` — can never surface as a failure result. -/
theorem C10_value_parsed_unconditionally
    (net : AssembleRequest → Except String HttpResponse)
    (swap : SwapContext) (resp : HttpResponse) (b : String) (td : TransactionData)
    (bytes : List Nat)
    (hnet : net (mkAssembleRequest swap.signer_address swap.output_recipient swap.path_id) =
      .ok resp)
    (hst : isSuccess resp.status = true) (hb : resp.body = some b)
    (hdec : (parseJson b).bind decodeAssemblyResponse = some ⟨td⟩)
    (hhex : hexDecode td.data = some bytes) :
    build_base_transaction net swap =
      .ok ⟨some bytes, some (parse_value td.value), some swap.router_address,
        some swap.signer_address, none, none, none⟩ := by
  obtain ⟨j, hj, hd⟩ := Option.bind_eq_some.mp hdec
  rw [build_base_transaction,
    assemble_tx_data_2xx net swap.signer_address swap.output_recipient swap.path_id
      resp b hnet hst hb]
  simp [hj, hd, hhex, TransactionRequest.default]

/-- Witness for C10 at a mocked assembly response whose `value` field is
not numeric at all: the call still succeeds. -/
theorem C10_value_parsed_unconditionally_witness :
    build_base_transaction
        (fun _ => .ok ⟨200, some "\x7b\"transaction\":\x7b\"to\":\"0x5\",\"data\":\"0x12\",\"value\":\"not-a-number\"\x7d\x7d"⟩) ⟨1, 2, "pid-1", 3⟩ =
      .ok ⟨some [0x12], some (parse_value "not-a-number"), some 3, some 1,
        none, none, none⟩ :=
  C10_value_parsed_unconditionally (fun _ => .ok ⟨200, some "\x7b\"transaction\":\x7b\"to\":\"0x5\",\"data\":\"0x12\",\"value\":\"not-a-number\"\x7d\x7d"⟩) ⟨1, 2, "pid-1", 3⟩
    ⟨200, some "\x7b\"transaction\":\x7b\"to\":\"0x5\",\"data\":\"0x12\",\"value\":\"not-a-number\"\x7d\x7d"⟩ "\x7b\"transaction\":\x7b\"to\":\"0x5\",\"data\":\"0x12\",\"value\":\"not-a-number\"\x7d\x7d" ⟨"0x5", "0x12", "not-a-number"⟩ [0x12]
    rfl rfl rfl (by rfl) (by decide)

end Odos
